import Mathlib

/-!
# OneNote authorization flow: store and handlers

A shallow embedding of `src/database.js` (the authorization store) and of the
two route handlers of `src/app.js` (`GET /partner/authorize` and
`GET /partner/auth/microsoft/callback`).

Collaborators that live outside the repository are inputs of the model:
the identity provider reached through axios, the PostgreSQL server reached
through `pool.query`, the random generator and the clock.  Every handler is a
function from its inputs to the ordered list of the actions it performs
(log lines, provider calls, store statements, and the response it sends).
-/

namespace OnenoteAuth

/-! ## JavaScript values -/

/-- A string-valued property of a JSON object as the handler sees it after
destructuring: the property is missing, is JSON null, or holds a string. -/
inductive JsStr where
  | undefined
  | null
  | str (s : String)
  deriving DecidableEq, Repr

/-- JavaScript truthiness: `undefined`, `null` and the empty string are falsy. -/
def JsStr.truthy : JsStr → Bool
  | .str s => s != ""
  | _ => false

/-- Conversion to text as done by a template literal. -/
def JsStr.toText : JsStr → String
  | .undefined => "undefined"
  | .null => "null"
  | .str s => s

/-- An integer-valued numeric property of a JSON object: missing, or a number. -/
inductive JsInt where
  | undefined
  | num (n : Int)
  deriving DecidableEq, Repr

/-- A JavaScript number restricted to integers; `none` is NaN. -/
abbrev JsNumber := Option Int

/-- ToNumber: `undefined` converts to NaN. -/
def JsInt.toNumber : JsInt → JsNumber
  | .undefined => none
  | .num n => some n

/-- Largest absolute time value (milliseconds since the epoch) a Date can hold. -/
def maxTimeValue : Int := 8640000000000000

/-- A Date object, by its time value; `none` is Invalid Date. -/
abbrev JsDate := Option Int

/-- Model of `new Date(value)`: NaN and values outside the Date range give Invalid Date. -/
def newDate : JsNumber → JsDate
  | none => none
  | some t => if -maxTimeValue ≤ t ∧ t ≤ maxTimeValue then some t else none

/-- An error object as the catch blocks inspect it: an axios error that carries
the provider response (`error.response.data`), or any other error, known by its
message. -/
inductive JsError where
  | withResponse (data : String)
  | plain (message : String)
  deriving DecidableEq, Repr

/-! ## Actions of a handler -/

/-- An argument of a console call. -/
inductive LogArg where
  | text (s : String)
  | errorObject (e : JsError)
  deriving DecidableEq, Repr

/-- What a handler sends back. -/
inductive Response where
  | send (status : Nat) (body : String)
  | render (view : String) (locals : List (String × String))
  | redirect (url : String)
  deriving DecidableEq, Repr

/-- HTTP status of a response (`res.render` answers 200, `res.redirect` 302). -/
def Response.status : Response → Nat
  | .send s _ => s
  | .render _ _ => 200
  | .redirect _ => 302

/-- The parameters of the statement of `saveUserAuthorization`, `$1` to `$5`. -/
structure UserData where
  microsoftUserId : JsStr
  email : JsStr
  accessToken : JsStr
  refreshToken : JsStr
  expiresAt : JsDate
  deriving DecidableEq, Repr

/-- One observable action of a handler. -/
inductive Event where
  | consoleLog (msg : String)
  | consoleError (args : List LogArg)
  | axiosPost (url : String) (body : String) (contentType : String)
  | axiosGet (url : String) (authorization : String)
  | poolQuery (params : UserData)
  | respond (r : Response)
  deriving DecidableEq, Repr

/-! ## The authorization store (`database.js`) -/

/-- A row of table `onenote_authorizations`. -/
structure Row where
  id : Nat
  microsoft_user_id : String
  email : String
  access_token : String
  refresh_token : String
  token_expires_at : Int
  created_at : Int
  updated_at : Int
  deriving DecidableEq, Repr

/-- The table together with the last value drawn from the sequence behind `id SERIAL`. -/
structure Db where
  rows : List Row
  serial : Nat
  deriving DecidableEq, Repr

/-- The constraint `microsoft_user_id ... UNIQUE` of the table definition. -/
def Db.UniqueIds (db : Db) : Prop :=
  (db.rows.map (fun r => r.microsoft_user_id)).Nodup

instance (db : Db) : Decidable db.UniqueIds := by
  unfold Db.UniqueIds; infer_instance

/-- The rows of the table whose `microsoft_user_id` is `k`. -/
def Db.recordsOf (db : Db) (k : String) : List Row :=
  db.rows.filter (fun r => r.microsoft_user_id = k)

/-- Model of `setupDatabase`: `CREATE TABLE IF NOT EXISTS` keeps an existing table
and creates an empty one otherwise. -/
def setupDatabase (existing : Option Db) : Db :=
  match existing with
  | some db => db
  | none => { rows := [], serial := 0 }

/-- The server side of `pool.query`. -/
structure PgEnv where
  /-- an error raised before the statement takes effect (connection loss, ...) -/
  failure : Option JsError
  /-- the error the server raises when a value violates a column constraint -/
  violation : JsError
  /-- the value of `NOW()` / `CURRENT_TIMESTAMP` -/
  now : Int

/-- Conversion of a text parameter: `undefined` and `null` are sent as SQL NULL. -/
def JsStr.toSql : JsStr → Option String
  | .str s => some s
  | _ => none

/-- The `DO UPDATE SET` clause on one row: the row in conflict on `microsoft_user_id`
takes the new email, tokens, expiry and update time; its `id` and `created_at` stay. -/
def doUpdateSet (now : Int) (k e a r : String) (t : Int) (row : Row) : Row :=
  if row.microsoft_user_id = k then
    { row with email := e, access_token := a, refresh_token := r,
               token_expires_at := t, updated_at := now }
  else row

/-- The statement of `saveUserAuthorization` on a table:
`INSERT ... ON CONFLICT (microsoft_user_id) DO UPDATE SET ...`. -/
def insertOnConflictUpdate (db : Db) (now : Int) (k e a r : String) (t : Int) : Db :=
  if db.rows.any (fun row => row.microsoft_user_id = k) then
    { rows := db.rows.map (doUpdateSet now k e a r t)
      serial := db.serial + 1 }
  else
    { rows := db.rows ++ [{ id := db.serial + 1, microsoft_user_id := k, email := e,
                            access_token := a, refresh_token := r, token_expires_at := t,
                            created_at := now, updated_at := now }]
      serial := db.serial + 1 }

/-- Model of `pool.query(query, [...])`: the statement fails when the server says so
or when a `NOT NULL` column would receive NULL or an invalid timestamp; otherwise
it takes effect. -/
def poolQuery (pg : PgEnv) (db : Db) (u : UserData) : Except JsError Db :=
  match pg.failure with
  | some err => .error err
  | none =>
    match u.microsoftUserId.toSql, u.email.toSql, u.accessToken.toSql,
          u.refreshToken.toSql, u.expiresAt with
    | some k, some e, some a, some r, some t =>
      .ok (insertOnConflictUpdate db pg.now k e a r t)
    | _, _, _, _, _ => .error pg.violation

/-- Result of `saveUserAuthorization`: whether it returned or threw, the table
afterwards, and what it did. -/
structure SaveResult where
  thrown : Option JsError
  db : Db
  trace : List Event

/-- Model of `saveUserAuthorization`. -/
def saveUserAuthorization (pg : PgEnv) (db : Db) (userData : UserData) : SaveResult :=
  match poolQuery pg db userData with
  | .ok db1 =>
    { thrown := none, db := db1,
      trace := [.poolQuery userData,
                .consoleLog ("Successfully saved authorization for user "
                  ++ userData.email.toText)] }
  | .error err =>
    { thrown := some err, db := db,
      trace := [.poolQuery userData,
                .consoleError [.text ("Error saving authorization for user "
                  ++ userData.email.toText ++ ":"), .errorObject err]] }

/-! ## `URLSearchParams` serialisation -/

/-- Upper-case hexadecimal digit of a value below 16. -/
def hexDigitUpper (n : Nat) : Char :=
  match n with
  | 0 => '0' | 1 => '1' | 2 => '2' | 3 => '3' | 4 => '4' | 5 => '5' | 6 => '6' | 7 => '7'
  | 8 => '8' | 9 => '9' | 10 => 'A' | 11 => 'B' | 12 => 'C' | 13 => 'D' | 14 => 'E'
  | _ => 'F'

/-- Percent-encoding of one byte. -/
def percentByte (b : Nat) : List Char :=
  ['%', hexDigitUpper (b / 16), hexDigitUpper (b % 16)]

/-- Characters the form-urlencoded serialiser leaves as they are. -/
def isUnreserved (c : Char) : Bool :=
  c.isAlphanum || c = '*' || c = '-' || c = '.' || c = '_'

/-- Form-urlencoded encoding of one character: a space becomes `+`, an unreserved
character stays, every other character is percent-encoded byte by byte (UTF-8). -/
def encodeChar (c : Char) : List Char :=
  if c = ' ' then ['+']
  else if isUnreserved c then [c]
  else (String.utf8EncodeChar c).flatMap (fun b => percentByte b.toNat)

/-- Form-urlencoded encoding of a name or a value. -/
def formEncode (s : String) : List Char :=
  s.data.flatMap encodeChar

/-- Serialisation of a list of name/value pairs: `name=value` joined by `&`. -/
def serializePairs : List (String × String) → List Char
  | [] => []
  | [(k, v)] => formEncode k ++ '=' :: formEncode v
  | (k, v) :: rest => formEncode k ++ '=' :: (formEncode v ++ '&' :: serializePairs rest)

/-- Model of `new URLSearchParams(...).toString()`. -/
def urlSearchParams (pairs : List (String × String)) : String :=
  String.mk (serializePairs pairs)

/-! ## Reading a query string back -/

/-- Split a character list at every occurrence of `sep`. -/
def splitAtChar (sep : Char) : List Char → List (List Char)
  | [] => [[]]
  | c :: cs =>
    if c = sep then [] :: splitAtChar sep cs
    else
      match splitAtChar sep cs with
      | [] => [[c]]
      | h :: t => (c :: h) :: t

/-- Name and value of one `name=value` segment, split at the first `=`. -/
def nameValue (seg : List Char) : String × String :=
  (String.mk (seg.takeWhile (fun c => c != '=')),
   String.mk ((seg.dropWhile (fun c => c != '=')).drop 1))

/-- The name/value pairs of a query string as written (before decoding):
split at `&`, drop empty segments, split each at its first `=`. -/
def rawPairs (q : List Char) : List (String × String) :=
  ((splitAtChar '&' q).filter (fun seg => !seg.isEmpty)).map nameValue

/-- The query string of a URL: what follows the first `?`. -/
def queryOf (url : String) : List Char :=
  (url.data.dropWhile (fun c => c != '?')).drop 1

/-! ## Configuration (`app.js`, section 1) -/

/-- The environment variables the application reads. -/
structure ProcessEnv where
  CLIENT_ID : Option String
  CLIENT_SECRET : Option String
  PORT : Option String
  DOMAIN : Option String

/-- Model of `process.env.X || fallback`: a missing or empty variable gives the fallback. -/
def orDefault (v : Option String) (fallback : String) : String :=
  match v with
  | some s => if s = "" then fallback else s
  | none => fallback

/-- Conversion of an environment variable to a URLSearchParams value. -/
def envText (v : Option String) : String :=
  match v with
  | some s => s
  | none => "undefined"

def PORT (env : ProcessEnv) : String := orDefault env.PORT "3000"

def DOMAIN (env : ProcessEnv) : String := orDefault env.DOMAIN "localhost"

def REDIRECT_URI (env : ProcessEnv) : String :=
  "https://" ++ DOMAIN env ++ ":" ++ PORT env ++ "/partner/auth/microsoft/callback"

def AUTHORITY : String := "https://login.microsoftonline.com/common"

def AUTH_ENDPOINT : String := "/oauth2/v2.0/authorize"

def TOKEN_ENDPOINT : String := "/oauth2/v2.0/token"

def GRAPH_API_ENDPOINT : String := "https://graph.microsoft.com/v1.0/me"

def SCOPES : List String := ["offline_access", "Notes.Read.All", "User.Read"]

/-! ## Sessions and requests -/

/-- The part of the session the handlers use: `req.session.state`. -/
structure Session where
  state : Option String
  deriving DecidableEq, Repr

/-- A value of `req.query`: the parameter is missing, is a string, or is an array
or object built by the query parser (known here by its conversion to text). -/
inductive QueryVal where
  | absent
  | str (s : String)
  | composite (text : String)
  deriving DecidableEq, Repr

/-- JavaScript truthiness of a query value. -/
def QueryVal.truthy : QueryVal → Bool
  | .absent => false
  | .str s => s != ""
  | .composite _ => true

/-- Conversion of a query value to text by `URLSearchParams.append`. -/
def QueryVal.toText : QueryVal → String
  | .absent => "undefined"
  | .str s => s
  | .composite t => t

/-- Model of `state === req.session.state`: a query value against the session state. -/
def strictEq (v : QueryVal) (s : Option String) : Bool :=
  match v, s with
  | .absent, none => true
  | .str a, some b => a = b
  | _, _ => false

/-- The two query parameters the callback reads. -/
structure Query where
  code : QueryVal
  state : QueryVal
  deriving DecidableEq, Repr

/-- Lower-case hexadecimal digit of a value below 16. -/
def hexDigitLower (n : Nat) : Char :=
  match n with
  | 0 => '0' | 1 => '1' | 2 => '2' | 3 => '3' | 4 => '4' | 5 => '5' | 6 => '6' | 7 => '7'
  | 8 => '8' | 9 => '9' | 10 => 'a' | 11 => 'b' | 12 => 'c' | 13 => 'd' | 14 => 'e'
  | _ => 'f'

/-- Model of `buffer.toString("hex")`. -/
def toHex (bytes : List (Fin 256)) : String :=
  String.mk (bytes.flatMap (fun b => [hexDigitLower (b.val / 16), hexDigitLower (b.val % 16)]))

/-- What a handler run leaves behind: its actions in program order, the session
and the table afterwards. -/
structure Outcome where
  trace : List Event
  session : Session
  db : Db
  deriving DecidableEq, Repr

/-! ## `GET /partner/authorize` -/

/-- The parameters of the authorization URL, in the order of the object literal. -/
def authParams (env : ProcessEnv) (state : String) : List (String × String) :=
  [("client_id", envText env.CLIENT_ID),
   ("response_type", "code"),
   ("redirect_uri", REDIRECT_URI env),
   ("scope", " ".intercalate SCOPES),
   ("state", state),
   ("response_mode", "query")]

/-- The authorization URL for a state value. -/
def authUrl (env : ProcessEnv) (state : String) : String :=
  AUTHORITY ++ AUTH_ENDPOINT ++ "?" ++ urlSearchParams (authParams env state)

/-- Model of the handler of `GET /partner/authorize`; `randomBytes` is the result
of `crypto.randomBytes(16)`. -/
def authorize (env : ProcessEnv) (randomBytes : List (Fin 256)) (session : Session)
    (db : Db) : Outcome :=
  let state := toHex randomBytes
  { trace := [.consoleLog ("Redirecting to: " ++ authUrl env state),
              .respond (.redirect (authUrl env state))]
    session := { session with state := some state }
    db := db }

/-! ## `GET /partner/auth/microsoft/callback` -/

/-- The body of a successful token response. -/
structure TokenData where
  access_token : JsStr
  refresh_token : JsStr
  expires_in : JsInt
  deriving DecidableEq, Repr

/-- The body of a successful profile response. -/
structure ProfileData where
  id : JsStr
  mail : JsStr
  deriving DecidableEq, Repr

/-- The collaborators of one callback execution. -/
structure Env where
  /-- outcome of `axios.post` on the token endpoint, given the request body -/
  exchange : String → Except JsError TokenData
  /-- outcome of `axios.get` on the profile endpoint, given the Authorization header -/
  profile : String → Except JsError ProfileData
  /-- the value of `Date.now()` -/
  now : Int
  /-- the database server -/
  pg : PgEnv

def stateMismatchMessage : String :=
  "State mismatch. The request might have been tampered with."

def missingCodeMessage : String :=
  "Error: Authorization code not found in callback."

def incompleteProfileMessage : String :=
  "Could not retrieve user ID and email from Microsoft."

def genericErrorMessage : String :=
  "An error occurred during the authentication process."

/-- Model of `error.response ? error.response.data : error.message`. -/
def JsError.detail : JsError → LogArg
  | .withResponse data => .text data
  | .plain message => .text message

/-- The catch block of the callback handler. -/
def catchBlock (error : JsError) : List Event :=
  [.consoleError [.text "Error during authentication callback:", error.detail],
   .respond (.send 500 genericErrorMessage)]

/-- The body of the token request. -/
def tokenParams (penv : ProcessEnv) (code : QueryVal) : String :=
  urlSearchParams
    [("grant_type", "authorization_code"),
     ("code", code.toText),
     ("redirect_uri", REDIRECT_URI penv),
     ("client_id", envText penv.CLIENT_ID),
     ("client_secret", envText penv.CLIENT_SECRET)]

/-- Model of `Date.now() + expires_in * 1000` followed by `new Date(...)`. -/
def expiryDate (now : Int) (expires_in : JsInt) : JsDate :=
  newDate (expires_in.toNumber.map (fun n => now + n * 1000))

/-- The Authorization header of the profile request. -/
def bearer (tok : TokenData) : String :=
  "Bearer " ++ tok.access_token.toText

/-- The values the callback hands to `saveUserAuthorization`. -/
def collected (now : Int) (tok : TokenData) (prof : ProfileData) : UserData :=
  { microsoftUserId := prof.id, email := prof.mail, accessToken := tok.access_token,
    refreshToken := tok.refresh_token, expiresAt := expiryDate now tok.expires_in }

/-- Model of the handler of `GET /partner/auth/microsoft/callback`. -/
def callback (penv : ProcessEnv) (env : Env) (query : Query) (session : Session)
    (db : Db) : Outcome :=
  if !strictEq query.state session.state then
    { trace := [.respond (.send 400 stateMismatchMessage)], session := session, db := db }
  else if !query.code.truthy then
    { trace := [.respond (.send 400 missingCodeMessage)], session := session, db := db }
  else
    let body := tokenParams penv query.code
    let t1 : List Event :=
      [.consoleLog "Exchanging authorization code for tokens...",
       .axiosPost (AUTHORITY ++ TOKEN_ENDPOINT) body "application/x-www-form-urlencoded"]
    match env.exchange body with
    | .error err => { trace := t1 ++ catchBlock err, session := session, db := db }
    | .ok tok =>
      let t2 : List Event :=
        t1 ++ [.consoleLog "Fetching user profile from Microsoft Graph API...",
               .axiosGet GRAPH_API_ENDPOINT (bearer tok)]
      match env.profile (bearer tok) with
      | .error err => { trace := t2 ++ catchBlock err, session := session, db := db }
      | .ok prof =>
        if !prof.id.truthy || !prof.mail.truthy then
          { trace := t2 ++ [.respond (.send 500 incompleteProfileMessage)],
            session := session, db := db }
        else
          let t3 : List Event :=
            t2 ++ [.consoleLog ("User profile received: ID=" ++ prof.id.toText
                                  ++ ", Email=" ++ prof.mail.toText)]
          let saved := saveUserAuthorization env.pg db (collected env.now tok prof)
          match saved.thrown with
          | some err =>
            { trace := t3 ++ saved.trace ++ catchBlock err, session := session,
              db := saved.db }
          | none =>
            { trace := t3 ++ saved.trace
                ++ [.respond (.render "success" [("userEmail", prof.mail.toText)])],
              session := session, db := saved.db }

/-! ## Reading a trace -/

/-- The responses sent during a run. -/
def responses (trace : List Event) : List Response :=
  trace.filterMap (fun ev => match ev with | .respond r => some r | _ => none)

/-- Whether an action is a call to the token endpoint. -/
def Event.isTokenExchange : Event → Bool
  | .axiosPost _ _ _ => true
  | _ => false

/-- Whether an action is a call to the profile endpoint. -/
def Event.isProfileFetch : Event → Bool
  | .axiosGet _ _ => true
  | _ => false

/-- Whether an action is a statement sent to the store. -/
def Event.isStoreWrite : Event → Bool
  | .poolQuery _ => true
  | _ => false

/-- Whether an action is an error log entry. -/
def Event.isErrorLog : Event → Bool
  | .consoleError _ => true
  | _ => false

/-! ## Vocabulary of the statements -/

/-- A stored row carries the values of a call of `saveUserAuthorization`. -/
def Row.Carries (row : Row) (u : UserData) : Prop :=
  u.microsoftUserId = .str row.microsoft_user_id ∧ u.email = .str row.email ∧
  u.accessToken = .str row.access_token ∧ u.refreshToken = .str row.refresh_token ∧
  u.expiresAt = some row.token_expires_at

instance (row : Row) (u : UserData) : Decidable (row.Carries u) := by
  unfold Row.Carries; infer_instance

/-- The rows of the table whose `microsoft_user_id` is not `k`, in table order. -/
def Db.othersThan (db : Db) (k : String) : List Row :=
  db.rows.filter (fun r => r.microsoft_user_id ≠ k)

/-- The request passes both validation steps of the callback. -/
def PassesValidation (query : Query) (session : Session) : Prop :=
  strictEq query.state session.state = true ∧ query.code.truthy = true

instance (query : Query) (session : Session) : Decidable (PassesValidation query session) := by
  unfold PassesValidation; infer_instance

/-- The token exchange throws. -/
def TokenExchangeFails (penv : ProcessEnv) (env : Env) (query : Query) : Prop :=
  ∃ err, env.exchange (tokenParams penv query.code) = .error err

/-- The token exchange returns and the profile fetch throws. -/
def ProfileFetchFails (penv : ProcessEnv) (env : Env) (query : Query) : Prop :=
  ∃ tok err, env.exchange (tokenParams penv query.code) = .ok tok ∧
    env.profile (bearer tok) = .error err

/-- Both provider calls return, the profile is complete, and the store write throws. -/
def StoreWriteFails (penv : ProcessEnv) (env : Env) (query : Query) (db : Db) : Prop :=
  ∃ tok prof err, env.exchange (tokenParams penv query.code) = .ok tok ∧
    env.profile (bearer tok) = .ok prof ∧
    prof.id.truthy = true ∧ prof.mail.truthy = true ∧
    (saveUserAuthorization env.pg db (collected env.now tok prof)).thrown = some err

/-- The run ends with the success view. -/
def CompletesSuccessfully (out : Outcome) : Prop :=
  ∃ locals, Event.respond (.render "success" locals) ∈ out.trace

/-! ## The scenario of the specification

Initiate, then a callback with matching state and `code=abc`; the provider returns
`access_token=T1`, `refresh_token=R1`, `expires_in=3600`, profile id `U1` and
email `a@x.com`. -/

def scenarioPenv : ProcessEnv :=
  { CLIENT_ID := some "client-1", CLIENT_SECRET := some "secret-1", PORT := none,
    DOMAIN := none }

def scenarioPg : PgEnv :=
  { failure := none, violation := .plain "not-null constraint", now := 1700000000900 }

def scenarioEnv : Env :=
  { exchange := fun _ => .ok ⟨.str "T1", .str "R1", .num 3600⟩
    profile := fun _ => .ok ⟨.str "U1", .str "a@x.com"⟩
    now := 1700000000000
    pg := scenarioPg }

def scenarioBytes : List (Fin 256) :=
  [0, 17, 34, 51, 68, 85, 102, 119, 136, 153, 170, 187, 204, 221, 238, 255]

def scenarioState : String := "00112233445566778899aabbccddeeff"

def scenarioSession : Session := { state := some scenarioState }

def scenarioQuery : Query := { code := .str "abc", state := .str scenarioState }

def emptyDb : Db := setupDatabase none

/-- A provider whose token endpoint rejects the code and answers with an error body. -/
def tokenErrorEnv : Env :=
  { scenarioEnv with exchange := fun _ => .error (.withResponse "invalid_grant: AADSTS70008") }

/-- A database server that drops the connection. -/
def storeErrorEnv : Env :=
  { scenarioEnv with
    pg := { scenarioPg with failure := some (.plain "Connection terminated unexpectedly") } }

/-- A provider whose profile response has no `mail` property. -/
def noMailEnv : Env :=
  { scenarioEnv with profile := fun _ => .ok ⟨.str "U1", .undefined⟩ }

/-- A table that already holds a record for another user. -/
def otherUserDb : Db :=
  { rows := [{ id := 1, microsoft_user_id := "U2", email := "b@x.com", access_token := "T0",
               refresh_token := "R0", token_expires_at := 1690000000000,
               created_at := 1680000000000, updated_at := 1680000000000 }]
    serial := 1 }

def scenarioUser : UserData :=
  { microsoftUserId := .str "U1", email := .str "a@x.com", accessToken := .str "T1",
    refreshToken := .str "R1", expiresAt := some 1700003600000 }


/-! ## The store: lemmas -/

theorem doUpdateSet_id (now : Int) (k e a r : String) (t : Int) (row : Row) :
    (doUpdateSet now k e a r t row).microsoft_user_id = row.microsoft_user_id := by
  unfold doUpdateSet
  split <;> rfl

theorem doUpdateSet_other (now : Int) (k e a r : String) (t : Int) (row : Row)
    (h : row.microsoft_user_id ≠ k) : doUpdateSet now k e a r t row = row := by
  unfold doUpdateSet
  rw [if_neg h]

theorem map_doUpdateSet_others (now : Int) (k e a r : String) (t : Int) (l : List Row) :
    (l.map (doUpdateSet now k e a r t)).filter (fun x => x.microsoft_user_id ≠ k)
      = l.filter (fun x => x.microsoft_user_id ≠ k) := by
  induction l with
  | nil => rfl
  | cons x xs ih =>
    simp only [List.map_cons, List.filter_cons, doUpdateSet_id, ih]
    by_cases hx : x.microsoft_user_id = k
    · simp [hx]
    · simp [hx, doUpdateSet_other _ _ _ _ _ _ x hx]

theorem map_doUpdateSet_key (now : Int) (k e a r : String) (t : Int) (l : List Row) :
    (l.map (doUpdateSet now k e a r t)).filter (fun x => x.microsoft_user_id = k)
      = (l.filter (fun x => x.microsoft_user_id = k)).map (doUpdateSet now k e a r t) := by
  induction l with
  | nil => rfl
  | cons x xs ih =>
    by_cases hx : x.microsoft_user_id = k
    · simp [List.filter_cons, doUpdateSet_id, hx, ih]
    · simp [List.filter_cons, doUpdateSet_id, hx, ih]

theorem upsert_othersThan (db : Db) (now : Int) (k e a r : String) (t : Int) :
    (insertOnConflictUpdate db now k e a r t).othersThan k = db.othersThan k := by
  unfold insertOnConflictUpdate Db.othersThan
  split
  · exact map_doUpdateSet_others now k e a r t db.rows
  · simp [List.filter_append]

theorem upsert_ids (l : List Row) (now : Int) (k e a r : String) (t : Int) :
    (l.map (doUpdateSet now k e a r t)).map (fun x => x.microsoft_user_id)
      = l.map (fun x => x.microsoft_user_id) := by
  induction l with
  | nil => rfl
  | cons x xs ih => simp only [List.map_cons, ih, doUpdateSet_id]

theorem upsert_uniqueIds (db : Db) (now : Int) (k e a r : String) (t : Int)
    (h : db.UniqueIds) : (insertOnConflictUpdate db now k e a r t).UniqueIds := by
  unfold insertOnConflictUpdate Db.UniqueIds at *
  split
  · simp only [upsert_ids]; exact h
  · rename_i hnone
    simp only [List.map_append, List.map_cons, List.map_nil]
    rw [List.nodup_append]
    refine ⟨h, List.nodup_singleton _, ?_⟩
    intro x hx hx2
    simp at hx2
    subst hx2
    apply hnone
    simp at hx ⊢
    exact hx

theorem filter_key_singleton (l : List Row) (k : String)
    (hn : (l.map (fun x => x.microsoft_user_id)).Nodup)
    (hany : l.any (fun row => row.microsoft_user_id = k) = true) :
    ∃ r0, l.filter (fun x => x.microsoft_user_id = k) = [r0] := by
  induction l with
  | nil => simp at hany
  | cons x xs ih =>
    simp only [List.map_cons, List.nodup_cons] at hn
    by_cases hx : x.microsoft_user_id = k
    · refine ⟨x, ?_⟩
      simp only [List.filter_cons, hx, decide_True, if_true]
      congr
      rw [List.filter_eq_nil_iff]
      intro y hy hyk
      simp at hyk
      apply hn.1
      rw [hx, ← hyk]
      exact List.mem_map_of_mem _ hy
    · have : xs.any (fun row => row.microsoft_user_id = k) = true := by
        simpa [hx] using hany
      obtain ⟨r0, hr0⟩ := ih hn.2 this
      exact ⟨r0, by simp [List.filter_cons, hx, hr0]⟩

theorem upsert_recordsOf (db : Db) (now : Int) (k e a r : String) (t : Int)
    (h : db.UniqueIds) :
    ∃ row, (insertOnConflictUpdate db now k e a r t).recordsOf k = [row] ∧
      row.microsoft_user_id = k ∧ row.email = e ∧ row.access_token = a ∧
      row.refresh_token = r ∧ row.token_expires_at = t := by
  unfold insertOnConflictUpdate Db.recordsOf
  split
  · rename_i hany
    obtain ⟨r0, hr0⟩ := filter_key_singleton db.rows k h hany
    have hk0 : r0.microsoft_user_id = k := by
      have : r0 ∈ db.rows.filter (fun x => x.microsoft_user_id = k) := by simp [hr0]
      simpa using (List.mem_filter.mp this).2
    refine ⟨doUpdateSet now k e a r t r0, ?_, ?_⟩
    · rw [map_doUpdateSet_key, hr0]; rfl
    · unfold doUpdateSet
      rw [if_pos hk0]
      exact ⟨hk0, rfl, rfl, rfl, rfl⟩
  · rename_i hnone
    refine ⟨{ id := db.serial + 1, microsoft_user_id := k, email := e,
              access_token := a, refresh_token := r, token_expires_at := t,
              created_at := now, updated_at := now }, ?_, rfl, rfl, rfl, rfl, rfl⟩
    rw [List.filter_append]
    have : db.rows.filter (fun x => x.microsoft_user_id = k) = [] := by
      rw [List.filter_eq_nil_iff]
      intro y hy hyk
      apply hnone
      simp at hyk ⊢
      exact ⟨y, hy, hyk⟩
    rw [this]
    simp

theorem save_ok_inv (pg : PgEnv) (db : Db) (u : UserData)
    (hok : (saveUserAuthorization pg db u).thrown = none) :
    ∃ k e a r t, u = ⟨.str k, .str e, .str a, .str r, some t⟩ ∧
      (saveUserAuthorization pg db u).db = insertOnConflictUpdate db pg.now k e a r t := by
  obtain ⟨uid, em, at_, rt, ex⟩ := u
  unfold saveUserAuthorization poolQuery at *
  cases hf : pg.failure with
  | some err => simp [hf] at hok
  | none =>
    cases uid <;> cases em <;> cases at_ <;> cases rt <;> cases ex <;>
      simp [hf, JsStr.toSql] at hok ⊢
    exact ⟨_, _, _, _, _, ⟨rfl, rfl, rfl, rfl, rfl⟩, rfl⟩

theorem recordsOf_of_othersThan (db : Db) (j k : String) (h : j ≠ k) :
    db.recordsOf j = (db.othersThan k).filter (fun r => r.microsoft_user_id = j) := by
  unfold Db.recordsOf Db.othersThan
  rw [List.filter_filter]
  congr 1
  funext r
  by_cases hr : r.microsoft_user_id = j
  · simp [hr, h]
  · simp [hr]

theorem save_ok_spec (pg : PgEnv) (db : Db) (u : UserData) (k : String)
    (hdb : db.UniqueIds) (hk : u.microsoftUserId = .str k)
    (hok : (saveUserAuthorization pg db u).thrown = none) :
    (∃ row, (saveUserAuthorization pg db u).db.recordsOf k = [row] ∧ row.Carries u) ∧
    (saveUserAuthorization pg db u).db.othersThan k = db.othersThan k ∧
    (saveUserAuthorization pg db u).db.UniqueIds := by
  obtain ⟨k1, e, a, r, t, hu, hdb1⟩ := save_ok_inv pg db u hok
  rw [hdb1]
  subst hu
  simp only [JsStr.str.injEq] at hk
  subst hk
  refine ⟨?_, upsert_othersThan _ _ _ _ _ _ _, upsert_uniqueIds _ _ _ _ _ _ _ hdb⟩
  obtain ⟨row, h1, h2, h3, h4, h5, h6⟩ := upsert_recordsOf db pg.now k1 e a r t hdb
  exact ⟨row, h1, by simp [Row.Carries, h2, h3, h4, h5, h6]⟩

/-! ## The store: claim C7 -/

/-- Claim C7. `saveUserAuthorization` is an overwrite keyed on the external user id.
On every table that satisfies the UNIQUE constraint, after a successful call for id `k`
the table holds exactly one row with `microsoft_user_id = k`, carrying the email, access
token, refresh token and expiry of that call, and the rows with a different id are
unchanged.  Hence a second successful call with the same id leaves exactly one row for
`k`, carrying the values of the second call, and a second successful call with a
different id `k2` leaves one row for `k` with the values of the first call and one row
for `k2` with the values of the second. -/
theorem saveUserAuthorization_overwrites_by_id (pg : PgEnv) (db : Db) (u : UserData)
    (k : String) (hdb : db.UniqueIds) (hk : u.microsoftUserId = .str k)
    (hok : (saveUserAuthorization pg db u).thrown = none) :
    ((∃ row, (saveUserAuthorization pg db u).db.recordsOf k = [row] ∧ row.Carries u) ∧
      (saveUserAuthorization pg db u).db.othersThan k = db.othersThan k) ∧
    (∀ (pg2 : PgEnv) (u2 : UserData), u2.microsoftUserId = .str k →
      (saveUserAuthorization pg2 (saveUserAuthorization pg db u).db u2).thrown = none →
      ∃ row, (saveUserAuthorization pg2 (saveUserAuthorization pg db u).db u2).db.recordsOf k
          = [row] ∧ row.Carries u2) ∧
    (∀ (pg2 : PgEnv) (u2 : UserData) (k2 : String), k2 ≠ k →
      u2.microsoftUserId = .str k2 →
      (saveUserAuthorization pg2 (saveUserAuthorization pg db u).db u2).thrown = none →
      ∃ r1 r2,
        (saveUserAuthorization pg2 (saveUserAuthorization pg db u).db u2).db.recordsOf k
          = [r1] ∧ r1.Carries u ∧
        (saveUserAuthorization pg2 (saveUserAuthorization pg db u).db u2).db.recordsOf k2
          = [r2] ∧ r2.Carries u2) := by
  obtain ⟨⟨row, hrow, hcar⟩, hoth, huniq⟩ := save_ok_spec pg db u k hdb hk hok
  refine ⟨⟨⟨row, hrow, hcar⟩, hoth⟩, ?_, ?_⟩
  · intro pg2 u2 hk2 hok2
    exact (save_ok_spec pg2 _ u2 k huniq hk2 hok2).1
  · intro pg2 u2 k2 hne hk2 hok2
    obtain ⟨⟨row2, hrow2, hcar2⟩, hoth2, _⟩ := save_ok_spec pg2 _ u2 k2 huniq hk2 hok2
    refine ⟨row, row2, ?_, hcar, hrow2, hcar2⟩
    rw [recordsOf_of_othersThan _ k k2 (Ne.symm hne), hoth2,
      ← recordsOf_of_othersThan _ k k2 (Ne.symm hne), hrow]

/-- Witness of C7: on a table that holds a record for `U2`, a call for `U1` leaves one
row for `U1` and the row of `U2` as it was; a second call for `U1` with new tokens
leaves one row for `U1` with the new tokens; a second call for `U3` instead leaves one
row for `U1` with the first values and one row for `U3`. -/
theorem saveUserAuthorization_overwrites_by_id_witness :
    otherUserDb.UniqueIds ∧
    (saveUserAuthorization scenarioPg otherUserDb scenarioUser).thrown = none ∧
    (∃ row, (saveUserAuthorization scenarioPg otherUserDb scenarioUser).db.recordsOf "U1"
        = [row] ∧ row.Carries scenarioUser) ∧
    (saveUserAuthorization scenarioPg otherUserDb scenarioUser).db.othersThan "U1"
      = otherUserDb.othersThan "U1" ∧
    (∃ row, (saveUserAuthorization scenarioPg
        (saveUserAuthorization scenarioPg otherUserDb scenarioUser).db
        { scenarioUser with accessToken := .str "T2", refreshToken := .str "R2" }).db.recordsOf
          "U1" = [row] ∧
      row.Carries { scenarioUser with accessToken := .str "T2", refreshToken := .str "R2" }) ∧
    (∃ r1 r2,
      (saveUserAuthorization scenarioPg
        (saveUserAuthorization scenarioPg otherUserDb scenarioUser).db
        { scenarioUser with microsoftUserId := .str "U3" }).db.recordsOf "U1" = [r1] ∧
      r1.Carries scenarioUser ∧
      (saveUserAuthorization scenarioPg
        (saveUserAuthorization scenarioPg otherUserDb scenarioUser).db
        { scenarioUser with microsoftUserId := .str "U3" }).db.recordsOf "U3" = [r2] ∧
      r2.Carries { scenarioUser with microsoftUserId := .str "U3" }) :=
  ⟨by decide, by decide,
   (saveUserAuthorization_overwrites_by_id scenarioPg otherUserDb scenarioUser "U1"
      (by decide) rfl (by decide)).1.1,
   (saveUserAuthorization_overwrites_by_id scenarioPg otherUserDb scenarioUser "U1"
      (by decide) rfl (by decide)).1.2,
   (saveUserAuthorization_overwrites_by_id scenarioPg otherUserDb scenarioUser "U1"
      (by decide) rfl (by decide)).2.1 scenarioPg
        { scenarioUser with accessToken := .str "T2", refreshToken := .str "R2" } rfl
        (by decide),
   (saveUserAuthorization_overwrites_by_id scenarioPg otherUserDb scenarioUser "U1"
      (by decide) rfl (by decide)).2.2 scenarioPg
        { scenarioUser with microsoftUserId := .str "U3" } "U3" (by decide) rfl
        (by decide)⟩

/-! ## The authorization URL: lemmas -/

theorem hexDigitUpper_ne (n : Nat) (c : Char) (hc : c = '&' ∨ c = '=') :
    hexDigitUpper n ≠ c := by
  unfold hexDigitUpper
  rcases hc with rfl | rfl <;> split <;> decide

theorem encodeChar_clean (c x : Char) (hx : x ∈ encodeChar c) : x ≠ '&' ∧ x ≠ '=' := by
  unfold encodeChar at hx
  split at hx
  · simp at hx; subst hx; decide
  · split at hx
    · rename_i hu
      simp at hx; subst hx
      constructor
      · rintro rfl; revert hu; decide
      · rintro rfl; revert hu; decide
    · simp only [List.mem_flatMap, percentByte] at hx
      obtain ⟨b, _, hb⟩ := hx
      simp only [List.mem_cons, List.mem_singleton, List.not_mem_nil, or_false] at hb
      rcases hb with rfl | rfl | rfl
      · decide
      · exact ⟨hexDigitUpper_ne _ _ (Or.inl rfl), hexDigitUpper_ne _ _ (Or.inr rfl)⟩
      · exact ⟨hexDigitUpper_ne _ _ (Or.inl rfl), hexDigitUpper_ne _ _ (Or.inr rfl)⟩

theorem formEncode_clean (s : String) (x : Char) (hx : x ∈ formEncode s) :
    x ≠ '&' ∧ x ≠ '=' := by
  unfold formEncode at hx
  rw [List.mem_flatMap] at hx
  obtain ⟨c, _, hc⟩ := hx
  exact encodeChar_clean c x hc

theorem splitAtChar_clean (sep : Char) (l : List Char) (h : sep ∉ l) :
    splitAtChar sep l = [l] := by
  induction l with
  | nil => rfl
  | cons c cs ih =>
    simp only [List.mem_cons, not_or] at h
    unfold splitAtChar
    rw [if_neg (fun hc => h.1 hc.symm), ih h.2]

theorem splitAtChar_append (sep : Char) (l r : List Char) (h : sep ∉ l) :
    splitAtChar sep (l ++ sep :: r) = l :: splitAtChar sep r := by
  induction l with
  | nil => simp [splitAtChar]
  | cons c cs ih =>
    simp only [List.mem_cons, not_or] at h
    simp only [List.cons_append]
    rw [splitAtChar, if_neg (fun hc => h.1 hc.symm), ih h.2]

theorem takeWhile_upto (sep : Char) (k v : List Char) (h : sep ∉ k) :
    (k ++ sep :: v).takeWhile (fun c => c != sep) = k := by
  induction k with
  | nil => simp [List.takeWhile]
  | cons c cs ih =>
    simp only [List.mem_cons, not_or] at h
    have hc : (c != sep) = true := by simpa using fun hc => h.1 hc.symm
    simp [List.takeWhile, hc, ih h.2]

theorem dropWhile_upto (sep : Char) (k v : List Char) (h : sep ∉ k) :
    (k ++ sep :: v).dropWhile (fun c => c != sep) = sep :: v := by
  induction k with
  | nil => simp [List.dropWhile]
  | cons c cs ih =>
    simp only [List.mem_cons, not_or] at h
    have hc : (c != sep) = true := by simpa using fun hc => h.1 hc.symm
    simp [List.dropWhile, hc, ih h.2]

theorem nameValue_append (k v : List Char) (h : '=' ∉ k) :
    nameValue (k ++ '=' :: v) = (String.mk k, String.mk v) := by
  unfold nameValue
  rw [takeWhile_upto '=' k v h, dropWhile_upto '=' k v h]; rfl

theorem segment_clean (k v : String) : '&' ∉ formEncode k ++ '=' :: formEncode v := by
  intro h
  rw [List.mem_append, List.mem_cons] at h
  rcases h with h | h | h
  · exact (formEncode_clean k _ h).1 rfl
  · revert h; decide
  · exact (formEncode_clean v _ h).1 rfl

theorem key_clean (k : String) : '=' ∉ formEncode k :=
  fun h => (formEncode_clean k _ h).2 rfl

theorem rawPairs_cons (seg rest : List Char) (h : '&' ∉ seg) (hne : seg ≠ []) :
    rawPairs (seg ++ '&' :: rest) = nameValue seg :: rawPairs rest := by
  unfold rawPairs
  rw [splitAtChar_append '&' seg rest h]
  cases seg with
  | nil => exact absurd rfl hne
  | cons c cs => simp [List.filter_cons]

theorem rawPairs_single (seg : List Char) (h : '&' ∉ seg) (hne : seg ≠ []) :
    rawPairs seg = [nameValue seg] := by
  unfold rawPairs
  rw [splitAtChar_clean '&' seg h]
  cases seg with
  | nil => exact absurd rfl hne
  | cons c cs => simp [List.filter_cons]

theorem rawPairs_serializePairs (ps : List (String × String)) :
    rawPairs (serializePairs ps)
      = ps.map (fun p => (String.mk (formEncode p.1), String.mk (formEncode p.2))) := by
  induction ps with
  | nil => rfl
  | cons p rest ih =>
    obtain ⟨k, v⟩ := p
    cases rest with
    | nil =>
      simp only [serializePairs, List.map_cons, List.map_nil]
      rw [rawPairs_single _ (segment_clean k v) (by simp), nameValue_append _ _ (key_clean k)]
    | cons q rest2 =>
      have hs : serializePairs ((k, v) :: q :: rest2)
          = (formEncode k ++ '=' :: formEncode v) ++ '&' :: serializePairs (q :: rest2) := by
        simp [serializePairs]
      rw [hs, rawPairs_cons _ _ (segment_clean k v) (by simp), ih,
        nameValue_append _ _ (key_clean k)]
      rfl

theorem queryOf_authUrl (env : ProcessEnv) (state : String) :
    queryOf (authUrl env state) = serializePairs (authParams env state) := by
  unfold queryOf authUrl urlSearchParams
  have h : '?' ∉ (AUTHORITY ++ AUTH_ENDPOINT).data := by decide
  have hd : (AUTHORITY ++ AUTH_ENDPOINT ++ "?" ++ String.mk (serializePairs (authParams env state))).data
      = (AUTHORITY ++ AUTH_ENDPOINT).data ++ '?' :: serializePairs (authParams env state) := by
    simp only [String.data_append, List.append_assoc]
    rfl
  rw [hd, dropWhile_upto '?' _ _ h]
  rfl

theorem hexDigitLower_unreserved (n : Nat) :
    encodeChar (hexDigitLower n) = [hexDigitLower n] := by
  unfold hexDigitLower
  split <;> decide

theorem formEncode_toHex (bytes : List (Fin 256)) :
    formEncode (toHex bytes) = (toHex bytes).data := by
  unfold formEncode toHex
  induction bytes with
  | nil => rfl
  | cons b bs ih =>
    simp only [List.flatMap_cons, List.cons_append, List.nil_append,
      List.singleton_append] at ih ⊢
    rw [hexDigitLower_unreserved, hexDigitLower_unreserved, ih]
    rfl

theorem toHex_length (bytes : List (Fin 256)) : (toHex bytes).length = 2 * bytes.length := by
  unfold toHex
  simp only [String.length]
  induction bytes with
  | nil => rfl
  | cons b bs ih => simp only [List.flatMap_cons, List.length_append, ih]; simp; omega

theorem hexDigitLower_mem (n : Nat) : hexDigitLower n ∈ "0123456789abcdef".data := by
  unfold hexDigitLower
  split <;> decide

theorem toHex_chars (bytes : List (Fin 256)) :
    ∀ c ∈ (toHex bytes).data, c ∈ "0123456789abcdef".data := by
  intro c hc
  unfold toHex at hc
  simp only [List.mem_flatMap, List.mem_cons, List.mem_singleton, List.not_mem_nil,
    or_false] at hc
  obtain ⟨b, _, rfl | rfl⟩ := hc <;> exact hexDigitLower_mem _

/-! ## The authorize handler: claim C9 -/

/-- Claim C9. For every initiate call, with `randomBytes` the 16 bytes drawn from the
random generator: the session afterwards holds their hex encoding, which has 32
characters, all of them hex digits; the response is a redirect to the authorization
URL; the query string of that URL splits into exactly the six pairs `client_id`,
`response_type=code`, `redirect_uri`, `scope`, `state`, `response_mode=query`, so
each of the six names occurs exactly once; the `state` pair carries the value stored
in the session and the scope value lists `offline_access`. -/
theorem authorize_stores_state_and_redirects (env : ProcessEnv) (randomBytes : List (Fin 256))
    (session : Session) (db : Db) (hlen : randomBytes.length = 16) :
    (authorize env randomBytes session db).session.state = some (toHex randomBytes) ∧
    (toHex randomBytes).length = 32 ∧
    (∀ c ∈ (toHex randomBytes).data, c ∈ "0123456789abcdef".data) ∧
    responses (authorize env randomBytes session db).trace
      = [.redirect (authUrl env (toHex randomBytes))] ∧
    rawPairs (queryOf (authUrl env (toHex randomBytes)))
      = [("client_id", String.mk (formEncode (envText env.CLIENT_ID))),
         ("response_type", "code"),
         ("redirect_uri", String.mk (formEncode (REDIRECT_URI env))),
         ("scope", "offline_access+Notes.Read.All+User.Read"),
         ("state", toHex randomBytes),
         ("response_mode", "query")] ∧
    (∀ name ∈ ["client_id", "response_type", "redirect_uri", "scope", "state",
        "response_mode"],
      ((rawPairs (queryOf (authUrl env (toHex randomBytes)))).map Prod.fst).count name = 1) ∧
    "offline_access" ∈ SCOPES := by
  have hpairs : rawPairs (queryOf (authUrl env (toHex randomBytes)))
      = [("client_id", String.mk (formEncode (envText env.CLIENT_ID))),
         ("response_type", "code"),
         ("redirect_uri", String.mk (formEncode (REDIRECT_URI env))),
         ("scope", "offline_access+Notes.Read.All+User.Read"),
         ("state", toHex randomBytes),
         ("response_mode", "query")] := by
    rw [queryOf_authUrl, rawPairs_serializePairs]
    simp only [authParams, List.map_cons, List.map_nil, formEncode_toHex]
    have e1 : formEncode "client_id" = "client_id".data := by decide
    have e2 : formEncode "response_type" = "response_type".data := by decide
    have e3 : formEncode "code" = "code".data := by decide
    have e4 : formEncode "redirect_uri" = "redirect_uri".data := by decide
    have e5 : formEncode "scope" = "scope".data := by decide
    have e6 : formEncode (" ".intercalate SCOPES)
        = "offline_access+Notes.Read.All+User.Read".data := by decide
    have e7 : formEncode "state" = "state".data := by decide
    have e8 : formEncode "response_mode" = "response_mode".data := by decide
    have e9 : formEncode "query" = "query".data := by decide
    rw [e1, e2, e3, e4, e5, e6, e7, e8, e9]
  refine ⟨rfl, ?_, toHex_chars randomBytes, rfl, hpairs, ?_, by decide⟩
  · rw [toHex_length, hlen]
  · rw [hpairs]
    intro name hname
    simp only [List.mem_cons, List.mem_singleton, List.not_mem_nil, or_false] at hname
    simp only [List.map_cons, List.map_nil]
    rcases hname with rfl | rfl | rfl | rfl | rfl | rfl <;> decide

/-- Witness of C9 on the sixteen bytes `00 11 22 ... ff`, with `CLIENT_ID=client-1` and
the default domain and port. -/
theorem authorize_stores_state_and_redirects_witness :
    scenarioBytes.length = 16 ∧
    (authorize scenarioPenv scenarioBytes { state := none } emptyDb).session.state
      = some "00112233445566778899aabbccddeeff" ∧
    rawPairs (queryOf (authUrl scenarioPenv (toHex scenarioBytes)))
      = [("client_id", "client-1"),
         ("response_type", "code"),
         ("redirect_uri",
          "https%3A%2F%2Flocalhost%3A3000%2Fpartner%2Fauth%2Fmicrosoft%2Fcallback"),
         ("scope", "offline_access+Notes.Read.All+User.Read"),
         ("state", "00112233445566778899aabbccddeeff"),
         ("response_mode", "query")] :=
  ⟨by decide,
   (authorize_stores_state_and_redirects scenarioPenv scenarioBytes
       { state := none } emptyDb (by decide)).1.trans (by decide),
   (authorize_stores_state_and_redirects scenarioPenv scenarioBytes
       { state := none } emptyDb (by decide)).2.2.2.2.1.trans (by decide)⟩

/-! ## The callback handler: one lemma per path -/

theorem strictEq_unset (v : QueryVal) (h : v ≠ .absent) : strictEq v none = false := by
  cases v <;> simp [strictEq] at h ⊢

theorem callback_mismatch_eq (penv : ProcessEnv) (env : Env) (query : Query)
    (session : Session) (db : Db) (h : strictEq query.state session.state = false) :
    callback penv env query session db
      = { trace := [.respond (.send 400 stateMismatchMessage)], session := session,
          db := db } := by
  unfold callback
  simp [h]

theorem callback_nocode_eq (penv : ProcessEnv) (env : Env) (query : Query)
    (session : Session) (db : Db) (hs : strictEq query.state session.state = true)
    (hc : query.code.truthy = false) :
    callback penv env query session db
      = { trace := [.respond (.send 400 missingCodeMessage)], session := session,
          db := db } := by
  unfold callback
  simp [hs, hc]

theorem callback_exchange_error (penv : ProcessEnv) (env : Env) (query : Query)
    (session : Session) (db : Db) (hv : PassesValidation query session) (err : JsError)
    (he : env.exchange (tokenParams penv query.code) = .error err) :
    callback penv env query session db
      = { trace := [.consoleLog "Exchanging authorization code for tokens...",
                    .axiosPost (AUTHORITY ++ TOKEN_ENDPOINT) (tokenParams penv query.code)
                      "application/x-www-form-urlencoded"] ++ catchBlock err,
          session := session, db := db } := by
  unfold callback
  simp [hv.1, hv.2, he]

theorem callback_profile_error (penv : ProcessEnv) (env : Env) (query : Query)
    (session : Session) (db : Db) (hv : PassesValidation query session)
    (tok : TokenData) (err : JsError)
    (he : env.exchange (tokenParams penv query.code) = .ok tok)
    (hp : env.profile (bearer tok) = .error err) :
    callback penv env query session db
      = { trace := [.consoleLog "Exchanging authorization code for tokens...",
                    .axiosPost (AUTHORITY ++ TOKEN_ENDPOINT) (tokenParams penv query.code)
                      "application/x-www-form-urlencoded",
                    .consoleLog "Fetching user profile from Microsoft Graph API...",
                    .axiosGet GRAPH_API_ENDPOINT (bearer tok)] ++ catchBlock err,
          session := session, db := db } := by
  unfold callback
  simp [hv.1, hv.2, he, hp]

theorem callback_incomplete (penv : ProcessEnv) (env : Env) (query : Query)
    (session : Session) (db : Db) (hv : PassesValidation query session)
    (tok : TokenData) (prof : ProfileData)
    (he : env.exchange (tokenParams penv query.code) = .ok tok)
    (hp : env.profile (bearer tok) = .ok prof)
    (hl : prof.id.truthy = false ∨ prof.mail.truthy = false) :
    callback penv env query session db
      = { trace := [.consoleLog "Exchanging authorization code for tokens...",
                    .axiosPost (AUTHORITY ++ TOKEN_ENDPOINT) (tokenParams penv query.code)
                      "application/x-www-form-urlencoded",
                    .consoleLog "Fetching user profile from Microsoft Graph API...",
                    .axiosGet GRAPH_API_ENDPOINT (bearer tok),
                    .respond (.send 500 incompleteProfileMessage)],
          session := session, db := db } := by
  unfold callback
  have hl2 : (!prof.id.truthy || !prof.mail.truthy) = true := by
    rcases hl with h | h <;> simp [h]
  simp only [hv.1, hv.2, he, hp, hl2]
  simp

theorem callback_saved (penv : ProcessEnv) (env : Env) (query : Query)
    (session : Session) (db : Db) (hv : PassesValidation query session)
    (tok : TokenData) (prof : ProfileData)
    (he : env.exchange (tokenParams penv query.code) = .ok tok)
    (hp : env.profile (bearer tok) = .ok prof)
    (hid : prof.id.truthy = true) (hmail : prof.mail.truthy = true) :
    callback penv env query session db
      = { trace := [.consoleLog "Exchanging authorization code for tokens...",
                    .axiosPost (AUTHORITY ++ TOKEN_ENDPOINT) (tokenParams penv query.code)
                      "application/x-www-form-urlencoded",
                    .consoleLog "Fetching user profile from Microsoft Graph API...",
                    .axiosGet GRAPH_API_ENDPOINT (bearer tok),
                    .consoleLog ("User profile received: ID=" ++ prof.id.toText
                                  ++ ", Email=" ++ prof.mail.toText)]
                  ++ (saveUserAuthorization env.pg db (collected env.now tok prof)).trace
                  ++ (match (saveUserAuthorization env.pg db
                              (collected env.now tok prof)).thrown with
                      | some err => catchBlock err
                      | none =>
                        [.respond (.render "success" [("userEmail", prof.mail.toText)])]),
          session := session,
          db := (saveUserAuthorization env.pg db (collected env.now tok prof)).db } := by
  unfold callback
  simp only [hv.1, hv.2, he, hp, hid, hmail]
  cases hth : (saveUserAuthorization env.pg db (collected env.now tok prof)).thrown <;>
    simp [hth]

theorem save_trace_responses (pg : PgEnv) (db : Db) (u : UserData) :
    responses (saveUserAuthorization pg db u).trace = [] := by
  unfold saveUserAuthorization
  split <;> rfl

theorem save_trace_writes (pg : PgEnv) (db : Db) (u : UserData) :
    (saveUserAuthorization pg db u).trace.filter Event.isStoreWrite = [.poolQuery u] := by
  unfold saveUserAuthorization
  split <;> rfl

theorem responses_append (a b : List Event) :
    responses (a ++ b) = responses a ++ responses b := by
  unfold responses
  exact List.filterMap_append _ _ _

theorem callback_session (penv : ProcessEnv) (env : Env) (query : Query)
    (session : Session) (db : Db) :
    (callback penv env query session db).session = session := by
  unfold callback
  dsimp only
  repeat (first | rfl | split)

theorem no_mismatch_reply (penv : ProcessEnv) (env : Env) (query : Query)
    (session : Session) (db : Db) (h : strictEq query.state session.state = true) :
    Event.respond (.send 400 stateMismatchMessage)
      ∉ (callback penv env query session db).trace := by
  unfold callback
  simp only [h, Bool.not_true, Bool.false_eq_true, if_false]
  have hmsg : stateMismatchMessage ≠ missingCodeMessage := by decide
  have hsave : ∀ u, Event.respond (.send 400 stateMismatchMessage)
      ∉ (saveUserAuthorization env.pg db u).trace := by
    intro u
    unfold saveUserAuthorization
    split <;> simp
  split
  · simp [hmsg]
  · split
    · simp [catchBlock]
    · split
      · simp [catchBlock]
      · split
        · simp
        · split
          · simp [catchBlock, hsave]
          · simp [hsave]

theorem failure_response (penv : ProcessEnv) (env : Env) (query : Query)
    (session : Session) (db : Db) (hv : PassesValidation query session)
    (hf : TokenExchangeFails penv env query ∨ ProfileFetchFails penv env query ∨
          StoreWriteFails penv env query db) :
    responses (callback penv env query session db).trace
      = [.send 500 genericErrorMessage] := by
  rcases hf with ⟨err, he⟩ | ⟨tok, err, he, hp⟩ | ⟨tok, prof, err, he, hp, hid, hmail, hs⟩
  · rw [callback_exchange_error penv env query session db hv err he]; rfl
  · rw [callback_profile_error penv env query session db hv tok err he hp]; rfl
  · rw [callback_saved penv env query session db hv tok prof he hp hid hmail]
    simp only [hs, responses_append, save_trace_responses]
    rfl

theorem expiry_of_saved (pg : PgEnv) (db : Db) (U E T R : JsStr) (now n : Int)
    (hok : (saveUserAuthorization pg db
      ⟨U, E, T, R, expiryDate now (.num n)⟩).thrown = none) :
    expiryDate now (.num n) = some (now + 1000 * n) := by
  obtain ⟨k, e, a, r, t, hu, _⟩ := save_ok_inv pg db _ hok
  simp only [UserData.mk.injEq] at hu
  have h5 := hu.2.2.2.2
  unfold expiryDate newDate at h5 ⊢
  simp only [JsInt.toNumber, Option.map_some'] at h5 ⊢
  split at h5
  · rename_i hr
    rw [if_pos hr]
    congr 1
    ring
  · exact absurd h5 (by simp)

/-! ## The callback handler: claims C1, C3, C4, C5, C6 -/

/-- Claim C1. For every callback request and session in which the query `state` is not
strictly equal to the session state (in particular whenever the session holds no state
and the query supplies one), whatever the value of `code` and whatever the provider and
the store would answer, the only action of the handler is the response HTTP 400 with the
state-mismatch message: no token exchange, no profile fetch, no store statement, and the
table is unchanged. -/
theorem callback_state_mismatch (penv : ProcessEnv) (env : Env) (query : Query)
    (session : Session) (db : Db)
    (h : strictEq query.state session.state = false ∨
         (session.state = none ∧ query.state ≠ .absent)) :
    (callback penv env query session db).trace
      = [.respond (.send 400 stateMismatchMessage)] ∧
    (∀ ev ∈ (callback penv env query session db).trace,
      ev.isTokenExchange = false ∧ ev.isProfileFetch = false ∧ ev.isStoreWrite = false) ∧
    (callback penv env query session db).db = db := by
  have hne : strictEq query.state session.state = false := by
    rcases h with h | ⟨h1, h2⟩
    · exact h
    · rw [h1]; exact strictEq_unset _ h2
  rw [callback_mismatch_eq penv env query session db hne]
  refine ⟨rfl, ?_, rfl⟩
  intro ev hev
  simp only [List.mem_singleton] at hev
  subst hev
  exact ⟨rfl, rfl, rfl⟩

/-- Witness of C1: query state `x` against session state `y`, with a valid code and a
provider that would accept it. -/
theorem callback_state_mismatch_witness :
    strictEq (QueryVal.str "x") (some "y") = false ∧
    (callback scenarioPenv scenarioEnv { code := .str "abc", state := .str "x" }
      { state := some "y" } emptyDb).trace
      = [.respond (.send 400 stateMismatchMessage)] :=
  ⟨by decide,
   (callback_state_mismatch scenarioPenv scenarioEnv { code := .str "abc", state := .str "x" }
      { state := some "y" } emptyDb (Or.inl (by decide))).1⟩

/-- Claim C3. For every callback request whose query `state` equals the session state
and whose `code` is absent, the only action of the handler is the response HTTP 400 with
the missing-code message: it is sent before any network call, so no token exchange, no
profile fetch and no store statement occurs, and the table is unchanged. -/
theorem callback_missing_code (penv : ProcessEnv) (env : Env) (query : Query)
    (session : Session) (db : Db)
    (hs : strictEq query.state session.state = true) (hc : query.code = .absent) :
    (callback penv env query session db).trace
      = [.respond (.send 400 missingCodeMessage)] ∧
    (∀ ev ∈ (callback penv env query session db).trace,
      ev.isTokenExchange = false ∧ ev.isProfileFetch = false ∧ ev.isStoreWrite = false) ∧
    (callback penv env query session db).db = db := by
  have hc2 : query.code.truthy = false := by rw [hc]; rfl
  rw [callback_nocode_eq penv env query session db hs hc2]
  refine ⟨rfl, ?_, rfl⟩
  intro ev hev
  simp only [List.mem_singleton] at hev
  subst hev
  exact ⟨rfl, rfl, rfl⟩

/-- Witness of C3: the state of the scenario and no `code` parameter. -/
theorem callback_missing_code_witness :
    strictEq (QueryVal.str scenarioState) scenarioSession.state = true ∧
    (callback scenarioPenv scenarioEnv { code := .absent, state := .str scenarioState }
      scenarioSession emptyDb).trace
      = [.respond (.send 400 missingCodeMessage)] :=
  ⟨by decide,
   (callback_missing_code scenarioPenv scenarioEnv
      { code := .absent, state := .str scenarioState } scenarioSession emptyDb
      (by decide) rfl).1⟩

/-- Claim C4. For every callback that passes validation and whose token exchange and
profile fetch both return, if the profile lacks the user id or lacks the email (the
property is missing, null or empty, which is what the handler tests), the handler
responds HTTP 500, no statement is sent to the store (`saveUserAuthorization` is not
called), and the table is unchanged. -/
theorem callback_incomplete_profile (penv : ProcessEnv) (env : Env) (query : Query)
    (session : Session) (db : Db) (tok : TokenData) (prof : ProfileData)
    (hv : PassesValidation query session)
    (he : env.exchange (tokenParams penv query.code) = .ok tok)
    (hp : env.profile (bearer tok) = .ok prof)
    (hl : prof.id.truthy = false ∨ prof.mail.truthy = false) :
    responses (callback penv env query session db).trace
      = [.send 500 incompleteProfileMessage] ∧
    (∀ ev ∈ (callback penv env query session db).trace, ev.isStoreWrite = false) ∧
    (callback penv env query session db).db = db := by
  rw [callback_incomplete penv env query session db hv tok prof he hp hl]
  refine ⟨rfl, ?_, rfl⟩
  intro ev hev
  simp only [List.mem_cons, List.mem_singleton, List.not_mem_nil, or_false] at hev
  rcases hev with rfl | rfl | rfl | rfl | rfl <;> rfl

/-- Witness of C4: the scenario with a profile response that has no `mail` property. -/
theorem callback_incomplete_profile_witness :
    PassesValidation scenarioQuery scenarioSession ∧
    responses (callback scenarioPenv noMailEnv scenarioQuery scenarioSession emptyDb).trace
      = [.send 500 incompleteProfileMessage] ∧
    (callback scenarioPenv noMailEnv scenarioQuery scenarioSession emptyDb).db = emptyDb :=
  ⟨by decide,
   (callback_incomplete_profile scenarioPenv noMailEnv scenarioQuery scenarioSession emptyDb
      ⟨.str "T1", .str "R1", .num 3600⟩ ⟨.str "U1", .undefined⟩ (by decide) rfl rfl
      (Or.inr rfl)).1,
   (callback_incomplete_profile scenarioPenv noMailEnv scenarioQuery scenarioSession emptyDb
      ⟨.str "T1", .str "R1", .num 3600⟩ ⟨.str "U1", .undefined⟩ (by decide) rfl rfl
      (Or.inr rfl)).2.2⟩

/-- Claim C5. No provider or store error detail reaches the caller. For every callback
that passes validation and in which the token exchange, the profile fetch or the store
write fails, the response is HTTP 500 with the fixed generic message; and any two such
executions, whatever the failing step, the error and its content, produce the same
response (same status, same body). -/
theorem callback_failure_is_generic (penv1 penv2 : ProcessEnv) (env1 env2 : Env)
    (query1 query2 : Query) (session1 session2 : Session) (db1 db2 : Db)
    (hv1 : PassesValidation query1 session1) (hv2 : PassesValidation query2 session2)
    (hf1 : TokenExchangeFails penv1 env1 query1 ∨ ProfileFetchFails penv1 env1 query1 ∨
           StoreWriteFails penv1 env1 query1 db1)
    (hf2 : TokenExchangeFails penv2 env2 query2 ∨ ProfileFetchFails penv2 env2 query2 ∨
           StoreWriteFails penv2 env2 query2 db2) :
    responses (callback penv1 env1 query1 session1 db1).trace
      = [.send 500 genericErrorMessage] ∧
    responses (callback penv2 env2 query2 session2 db2).trace
      = responses (callback penv1 env1 query1 session1 db1).trace := by
  rw [failure_response penv1 env1 query1 session1 db1 hv1 hf1,
    failure_response penv2 env2 query2 session2 db2 hv2 hf2]
  exact ⟨rfl, rfl⟩

/-- Witness of C5: a token endpoint that answers with an error body against a database
server that drops the connection. -/
theorem callback_failure_is_generic_witness :
    PassesValidation scenarioQuery scenarioSession ∧
    TokenExchangeFails scenarioPenv tokenErrorEnv scenarioQuery ∧
    StoreWriteFails scenarioPenv storeErrorEnv scenarioQuery emptyDb ∧
    responses (callback scenarioPenv tokenErrorEnv scenarioQuery scenarioSession emptyDb).trace
      = [.send 500 genericErrorMessage] ∧
    responses (callback scenarioPenv storeErrorEnv scenarioQuery scenarioSession emptyDb).trace
      = responses
          (callback scenarioPenv tokenErrorEnv scenarioQuery scenarioSession emptyDb).trace :=
  ⟨by decide, ⟨_, rfl⟩,
   ⟨⟨.str "T1", .str "R1", .num 3600⟩, ⟨.str "U1", .str "a@x.com"⟩, _, rfl, rfl,
     by decide, by decide, rfl⟩,
   callback_failure_is_generic scenarioPenv scenarioPenv tokenErrorEnv storeErrorEnv
     scenarioQuery scenarioQuery scenarioSession scenarioSession emptyDb emptyDb
     (by decide) (by decide) (Or.inl ⟨_, rfl⟩)
     (Or.inr (Or.inr ⟨⟨.str "T1", .str "R1", .num 3600⟩, ⟨.str "U1", .str "a@x.com"⟩, _,
       rfl, rfl, by decide, by decide, rfl⟩))⟩

/-- Claim C6. For every callback with matching state and a present code, where the token
exchange returns access token `T`, refresh token `R` and `expires_in = n`, the profile
fetch returns user id `U` and email `E`, both present (non-empty, which is what the
handler tests), and the store write succeeds: exactly one statement is sent to the
store, with parameters `(U, E, T, R, expiry)` where `expiry` is the instant
`now + 1000 * n` milliseconds; the response is the success view with `userEmail = E`;
and the table afterwards is the upsert of these values. -/
theorem callback_success (penv : ProcessEnv) (env : Env) (query : Query)
    (session : Session) (db : Db) (T R U E : String) (n : Int)
    (hv : PassesValidation query session)
    (he : env.exchange (tokenParams penv query.code) = .ok ⟨.str T, .str R, .num n⟩)
    (hp : env.profile ("Bearer " ++ T) = .ok ⟨.str U, .str E⟩)
    (hU : U ≠ "") (hE : E ≠ "")
    (hok : (saveUserAuthorization env.pg db
      ⟨.str U, .str E, .str T, .str R, expiryDate env.now (.num n)⟩).thrown = none) :
    (callback penv env query session db).trace.filter Event.isStoreWrite
      = [.poolQuery ⟨.str U, .str E, .str T, .str R, some (env.now + 1000 * n)⟩] ∧
    responses (callback penv env query session db).trace
      = [.render "success" [("userEmail", E)]] ∧
    (callback penv env query session db).db
      = insertOnConflictUpdate db env.pg.now U E T R (env.now + 1000 * n) := by
  have hid : (ProfileData.mk (.str U) (.str E)).id.truthy = true := by
    simp [JsStr.truthy, hU]
  have hmail : (ProfileData.mk (.str U) (.str E)).mail.truthy = true := by
    simp [JsStr.truthy, hE]
  have hp2 : env.profile (bearer ⟨.str T, .str R, .num n⟩) = .ok ⟨.str U, .str E⟩ := hp
  have hex := expiry_of_saved env.pg db _ _ _ _ env.now n hok
  rw [callback_saved penv env query session db hv _ _ he hp2 hid hmail]
  have hcol : collected env.now ⟨.str T, .str R, .num n⟩ ⟨.str U, .str E⟩
      = ⟨.str U, .str E, .str T, .str R, some (env.now + 1000 * n)⟩ := by
    simp only [collected, hex]
  rw [hex] at hok
  rw [hcol]
  simp only [hok, responses_append, save_trace_responses, List.filter_append,
    save_trace_writes]
  refine ⟨rfl, rfl, ?_⟩
  obtain ⟨k, e, a, r, t, hu, hdb⟩ := save_ok_inv env.pg db _ hok
  simp only [UserData.mk.injEq, JsStr.str.injEq, Option.some.injEq] at hu
  obtain ⟨rfl, rfl, rfl, rfl, rfl⟩ := hu
  exact hdb

/-- Witness of C6: the scenario of the specification, `T1`, `R1`, 3600, `U1`, `a@x.com`,
on an empty table. -/
theorem callback_success_witness :
    PassesValidation scenarioQuery scenarioSession ∧
    (callback scenarioPenv scenarioEnv scenarioQuery scenarioSession emptyDb).trace.filter
        Event.isStoreWrite
      = [.poolQuery ⟨.str "U1", .str "a@x.com", .str "T1", .str "R1",
          some (1700000000000 + 1000 * 3600)⟩] ∧
    responses (callback scenarioPenv scenarioEnv scenarioQuery scenarioSession emptyDb).trace
      = [.render "success" [("userEmail", "a@x.com")]] ∧
    (callback scenarioPenv scenarioEnv scenarioQuery scenarioSession emptyDb).db.rows
      = [{ id := 1, microsoft_user_id := "U1", email := "a@x.com", access_token := "T1",
           refresh_token := "R1", token_expires_at := 1700003600000,
           created_at := 1700000000900, updated_at := 1700000000900 }] :=
  ⟨by decide,
   (callback_success scenarioPenv scenarioEnv scenarioQuery scenarioSession emptyDb
      "T1" "R1" "U1" "a@x.com" 3600 (by decide) rfl rfl (by decide) (by decide)
      (by decide)).1,
   (callback_success scenarioPenv scenarioEnv scenarioQuery scenarioSession emptyDb
      "T1" "R1" "U1" "a@x.com" 3600 (by decide) rfl rfl (by decide) (by decide)
      (by decide)).2.1,
   (congrArg Db.rows (callback_success scenarioPenv scenarioEnv scenarioQuery scenarioSession
      emptyDb "T1" "R1" "U1" "a@x.com" 3600 (by decide) rfl rfl (by decide) (by decide)
      (by decide)).2.2).trans (by decide)⟩

/-! ## The callback handler: claims C2, C8, C10 -/

theorem exchange_attempted (penv : ProcessEnv) (env : Env) (query : Query)
    (session : Session) (db : Db) (hv : PassesValidation query session) :
    Event.axiosPost (AUTHORITY ++ TOKEN_ENDPOINT) (tokenParams penv query.code)
        "application/x-www-form-urlencoded"
      ∈ (callback penv env query session db).trace := by
  unfold callback
  simp only [hv.1, hv.2, Bool.not_true, Bool.false_eq_true, if_false]
  split
  · simp
  · split
    · simp
    · split
      · simp
      · split <;> simp

/-- Claim C2, evaluated where the code departs from it: the session holds no state and
the query carries no `state` parameter (and carries `code=abc`). Whatever the provider
and the store answer, the handler does not send the state-mismatch response and does
call the token endpoint; with the provider of the scenario it goes on to write the
tokens to the store and renders the success view. -/
theorem callback_unset_state_reaches_exchange (penv : ProcessEnv) (env : Env) (db : Db) :
    Event.respond (.send 400 stateMismatchMessage)
      ∉ (callback penv env { code := .str "abc", state := .absent } { state := none }
          db).trace ∧
    Event.axiosPost (AUTHORITY ++ TOKEN_ENDPOINT) (tokenParams penv (.str "abc"))
        "application/x-www-form-urlencoded"
      ∈ (callback penv env { code := .str "abc", state := .absent } { state := none }
          db).trace ∧
    responses (callback scenarioPenv scenarioEnv { code := .str "abc", state := .absent }
        { state := none } emptyDb).trace
      = [.render "success" [("userEmail", "a@x.com")]] ∧
    ((callback scenarioPenv scenarioEnv { code := .str "abc", state := .absent }
        { state := none } emptyDb).db.rows.map (fun r => r.microsoft_user_id))
      = ["U1"] :=
  ⟨no_mismatch_reply penv env _ _ db rfl,
   exchange_attempted penv env { code := .str "abc", state := .absent } { state := none } db
     ⟨rfl, by decide⟩,
   by decide, by decide⟩

/-- The three failures that reach the catch block are logged before the response: the
trace ends with the error log entry of the catch block followed by the response. -/
theorem failure_logged_before_response (penv : ProcessEnv) (env : Env) (query : Query)
    (session : Session) (db : Db) (hv : PassesValidation query session)
    (hf : TokenExchangeFails penv env query ∨ ProfileFetchFails penv env query ∨
          StoreWriteFails penv env query db) :
    ∃ (before : List Event) (err : JsError), (callback penv env query session db).trace
      = before ++ [.consoleError [.text "Error during authentication callback:", err.detail],
                   .respond (.send 500 genericErrorMessage)] := by
  rcases hf with ⟨err, he⟩ | ⟨tok, err, he, hp⟩ | ⟨tok, prof, err, he, hp, hid, hmail, hs⟩
  · rw [callback_exchange_error penv env query session db hv err he]
    exact ⟨_, err, rfl⟩
  · rw [callback_profile_error penv env query session db hv tok err he hp]
    exact ⟨_, err, rfl⟩
  · rw [callback_saved penv env query session db hv tok prof he hp hid hmail]
    simp only [hs]
    exact ⟨_, err, rfl⟩

/-- Claim C8, evaluated where the code departs from it: in the scenario with a profile
response that has no `mail` property the handler responds HTTP 500 and its whole trace
is two informational log lines, the two provider calls and the response: it contains no
error log entry. -/
theorem callback_incomplete_profile_not_logged :
    (callback scenarioPenv noMailEnv scenarioQuery scenarioSession emptyDb).trace
      = [.consoleLog "Exchanging authorization code for tokens...",
         .axiosPost (AUTHORITY ++ TOKEN_ENDPOINT) (tokenParams scenarioPenv (.str "abc"))
           "application/x-www-form-urlencoded",
         .consoleLog "Fetching user profile from Microsoft Graph API...",
         .axiosGet GRAPH_API_ENDPOINT "Bearer T1",
         .respond (.send 500 incompleteProfileMessage)] ∧
    (∀ ev ∈ (callback scenarioPenv noMailEnv scenarioQuery scenarioSession emptyDb).trace,
      ev.isErrorLog = false) := by
  have h := callback_incomplete scenarioPenv noMailEnv scenarioQuery scenarioSession emptyDb
    (by decide) ⟨.str "T1", .str "R1", .num 3600⟩ ⟨.str "U1", .undefined⟩ rfl rfl (Or.inr rfl)
  rw [h]
  refine ⟨rfl, ?_⟩
  intro ev hev
  simp only [List.mem_cons, List.mem_singleton, List.not_mem_nil, or_false] at hev
  rcases hev with rfl | rfl | rfl | rfl | rfl <;> rfl

/-- Counterexample to claim C10: the callback of the scenario completes successfully,
the session afterwards still holds the state it was validated against, and a second
callback with the same query on that session is answered with the success view again,
not with HTTP 400. -/
theorem callback_state_survives_success :
    responses (callback scenarioPenv scenarioEnv scenarioQuery scenarioSession emptyDb).trace
      = [.render "success" [("userEmail", "a@x.com")]] ∧
    (callback scenarioPenv scenarioEnv scenarioQuery scenarioSession emptyDb).session.state
      = some scenarioState ∧
    (responses (callback scenarioPenv scenarioEnv scenarioQuery
        (callback scenarioPenv scenarioEnv scenarioQuery scenarioSession emptyDb).session
        (callback scenarioPenv scenarioEnv scenarioQuery scenarioSession emptyDb).db).trace).map
          Response.status
      = [200] := by
  decide

/-- Claim C10 as amended. The authorization state is not consumed by a successful
callback: after any callback execution that completes successfully the session is the
one before it, still holding the state value it was validated against, so a second
callback on that session carrying the same `state` (whatever its code, the provider and
the store) passes the state check again and is not answered with the state-mismatch
response. -/
theorem callback_keeps_session_state (penv : ProcessEnv) (env : Env) (query : Query)
    (session : Session) (db : Db)
    (hsucc : CompletesSuccessfully (callback penv env query session db)) :
    (callback penv env query session db).session = session ∧
    strictEq query.state (callback penv env query session db).session.state = true ∧
    (∀ (penv2 : ProcessEnv) (env2 : Env) (code2 : QueryVal) (db2 : Db),
      Event.respond (.send 400 stateMismatchMessage)
        ∉ (callback penv2 env2 { code := code2, state := query.state }
            (callback penv env query session db).session db2).trace) := by
  have hs : strictEq query.state session.state = true := by
    cases hq : strictEq query.state session.state with
    | true => rfl
    | false =>
      obtain ⟨locals, hmem⟩ := hsucc
      rw [callback_mismatch_eq penv env query session db hq] at hmem
      simp at hmem
  rw [callback_session]
  refine ⟨rfl, hs, ?_⟩
  intro penv2 env2 code2 db2
  exact no_mismatch_reply penv2 env2 _ session db2 hs

/-- Witness of the amended C10 on the scenario. -/
theorem callback_keeps_session_state_witness :
    CompletesSuccessfully
      (callback scenarioPenv scenarioEnv scenarioQuery scenarioSession emptyDb) ∧
    (callback scenarioPenv scenarioEnv scenarioQuery scenarioSession emptyDb).session
      = scenarioSession :=
  ⟨⟨[("userEmail", "a@x.com")], by decide⟩,
   (callback_keeps_session_state scenarioPenv scenarioEnv scenarioQuery scenarioSession
      emptyDb ⟨[("userEmail", "a@x.com")], by decide⟩).1⟩

end OnenoteAuth
